import Mathlib

/-!
Shallow embedding of the goflow webhook/resthook actions and the engine
services registry, translated from:
  src/flows/actions/call_webhook.go
  src/flows/actions/call_resthook.go
  src/flows/engine/services.go
Go errors are modelled as `String`; fallible Go calls returning `(T, error)`
become `Except GoErr T` when the value is unused on error, and
`T × Option GoErr` when Go uses both components (as `EvaluateTemplate` and
`WebhookService.Call` do).  External collaborators (template evaluation,
`json.Valid`, `url.Parse`, `http.NewRequest`, the webhook service) are
parameters of an explicit environment, since the engine injects them.
-/

abbrev GoErr := String

/-- An HTTP request as built by `http.NewRequest` plus `Header.Add` calls. -/
structure HttpRequest where
  method : String
  url : String
  body : String
  headers : List (String × String)
deriving Repr, DecidableEq

/-- Webhook call record (spec section 6): url, method, status code and bodies. -/
structure WebhookCall where
  url : String
  method : String
  statusCode : Nat
  request : String
  response : String
deriving Repr, DecidableEq

/-- Call statuses from flows.CallStatus used by webhook_called events. -/
inductive CallStatus where
  | success
  | connectionError
  | responseError
  | subscriberGone
deriving Repr, DecidableEq

/-- Events appended by the two actions under study. -/
inductive Event where
  | errorEvent (msg : GoErr)
  | resthookCalled (slug : String) (payload : String)
  | webhookCalled (call : WebhookCall) (status : CallStatus) (resthook : String)
deriving Repr, DecidableEq

/-- A resthook asset: slug resolved set of subscriber URLs. -/
structure Resthook where
  subscribers : List String
deriving Repr, DecidableEq

/-- Opaque parsed-JSON value stored in the run's webhook scratch
(`types.JSONToXValue` output); its structure is irrelevant to the claims. -/
abbrev XValue := String

/-- The webhook service capability: `Call(session, req)` returns a possibly
nil `*WebhookCall` and a possibly non-nil error, independently. -/
abbrev WebhookSvc := HttpRequest → Option WebhookCall × Option GoErr

/-- Run state touched by the two actions: the webhook scratch value and the
saved results (name, value, category, and the call a webhook result was
saved from). -/
structure SavedResult where
  value : String
  category : String
  call : Option WebhookCall
deriving Repr, DecidableEq

structure RunState where
  webhook : XValue
  results : List (String × SavedResult)
deriving Repr, DecidableEq

/-- Environment of injected collaborators, fixed for one action execution. -/
structure Env where
  findResthook : String → Option Resthook
  evalTemplate : String → String × Option GoErr
  jsonValid : String → Bool
  urlParseOk : String → Bool
  newRequest : String → String → String → Except GoErr HttpRequest
  webhookService : Except GoErr WebhookSvc
  extractResponseJSON : String → String
  jsonToXValue : String → XValue

/-- `isValidURL` from call_webhook.go: whether `url.Parse` succeeds. -/
def isValidURL (env : Env) (u : String) : Bool := env.urlParseOk u

/-- `callStatus` from call_webhook.go: determines the webhook status from
the HTTP status code. -/
def callStatus (call : WebhookCall) (isResthook : Bool) : CallStatus :=
  if call.statusCode == 0 then
    CallStatus.connectionError
  else if isResthook && call.statusCode == 410 then
    CallStatus.subscriberGone
  else if call.statusCode / 100 == 2 then
    CallStatus.success
  else
    CallStatus.responseError

/-- `ResthookPayload` from call_resthook.go: the canonical POST payload
template (whitespace collapsed; its text is opaque to the engine, which
only passes it to `EvaluateTemplate`). -/
def ResthookPayload : String :=
  "@(json(object(\"contact\", object(\"uuid\", contact.uuid, \"name\", contact.name, \"urn\", contact.urn), \"flow\", run.flow, \"path\", run.path, \"results\", foreach_value(results, extract_object, \"category\", \"category_localized\", \"created_on\", \"input\", \"name\", \"node_uuid\", \"value\"), \"run\", object(\"uuid\", run.uuid, \"created_on\", run.created_on), \"input\", if(input, object(\"attachments\", foreach(input.attachments, attachment_parts), \"channel\", input.channel, \"created_on\", input.created_on, \"text\", input.text, \"type\", input.type, \"urn\", if(input.urn, object(\"display\", default(format_urn(input.urn), \"\"), \"path\", urn_parts(input.urn).path, \"scheme\", urn_parts(input.urn).scheme), null), null), \"uuid\", input.uuid), null), \"channel\", default(input.channel, null))))"

/-- `CallResthookAction` from call_resthook.go. -/
structure CallResthookAction where
  Resthook : String
  ResultName : String
deriving Repr, DecidableEq

/-- `CallWebhookAction` from call_webhook.go. -/
structure CallWebhookAction where
  Method : String
  URL : String
  Headers : List (String × String)
  Body : String
  ResultName : String
  ResponseAsExtra : Bool
deriving Repr, DecidableEq

/-- Modelled from the spec: the category of a saved webhook result is
"Success" or "Failure" per the call status (spec section 4.3); the helper
lives in the actions base file, which is not among the provided sources. -/
def webhookStatusCategory (status : CallStatus) : String :=
  match status with
  | CallStatus.success => "Success"
  | _ => "Failure"

/-- Modelled from the spec: `saveResult` from the actions base (not among
the provided sources) stores a named result with a value and category on
the run; last write wins (spec section 3), modelled by appending. -/
def saveResult (run : RunState) (name value category : String) : RunState :=
  { run with results := run.results ++ [(name, ⟨value, category, none⟩)] }

/-- Modelled from the spec: `saveWebhookResult` from the actions base (not
among the provided sources) stores a result for a completed webhook call,
with category Success or Failure per the call status (spec section 4.3). -/
def saveWebhookResult (run : RunState) (name : String) (call : WebhookCall)
    (status : CallStatus) (_asExtra : Bool) : RunState :=
  { run with results := run.results ++
      [(name, ⟨toString call.statusCode, webhookStatusCategory status, some call⟩)] }

/-- One iteration of the loop in `pickResultCall` (call_resthook.go lines
157-165), updating (lastSuccess, last410, lastFailure). -/
def pickStep (acc : Option WebhookCall × Option WebhookCall × Option WebhookCall)
    (call : WebhookCall) : Option WebhookCall × Option WebhookCall × Option WebhookCall :=
  if call.statusCode / 100 == 2 then (some call, acc.2.1, acc.2.2)
  else if call.statusCode == 410 then (acc.1, some call, acc.2.2)
  else (acc.1, acc.2.1, some call)

/-- `pickResultCall` from call_resthook.go: picks one of the resthook calls
to become the result generated by the action. -/
def pickResultCall (calls : List WebhookCall) : Option WebhookCall :=
  let acc := calls.foldl pickStep (none, none, none)
  match acc.2.2 with
  | some lastFailure => some lastFailure
  | none =>
    match acc.1 with
    | some lastSuccess => some lastSuccess
    | none => acc.2.1

/-- The subscriber loop of `CallResthookAction.Execute` (call_resthook.go
lines 111-135).  Events accumulate onto `evs`; the second component of the
output is `none` when the Go loop returned early (building the request or
resolving the webhook service failed) and otherwise holds the completed
calls. -/
def subscriberLoop (env : Env) (slug payload : String) :
    List String → List WebhookCall → List Event → List Event × Option (List WebhookCall)
  | [], calls, evs => (evs, some calls)
  | url :: rest, calls, evs =>
    match env.newRequest "POST" url payload with
    | Except.error e => (evs ++ [Event.errorEvent e], none)
    | Except.ok req0 =>
      let req := { req0 with headers := req0.headers ++ [("Content-Type", "application/json")] }
      match env.webhookService with
      | Except.error e => (evs ++ [Event.errorEvent e], none)
      | Except.ok svc =>
        let res := svc req
        let evs1 := match res.2 with
          | some e => evs ++ [Event.errorEvent e]
          | none => evs
        match res.1 with
        | some call =>
          subscriberLoop env slug payload rest (calls ++ [call])
            (evs1 ++ [Event.webhookCalled call (callStatus call true) slug])
        | none => subscriberLoop env slug payload rest calls evs1

/-- `CallResthookAction.Execute` from call_resthook.go, as a function from
run state to (new run state, appended events, returned error). -/
def CallResthookAction.Execute (a : CallResthookAction) (env : Env) (run : RunState) :
    RunState × List Event × Option GoErr :=
  match env.findResthook a.Resthook with
  | none => (run, [], none)
  | some resthook =>
    let payloadRes := env.evalTemplate ResthookPayload
    match payloadRes.2 with
    | some e => (run, [], some ("error evaluating resthook payload: " ++ e))
    | none =>
      let payload := payloadRes.1
      if !(env.jsonValid payload) then
        (run, [], some ("resthook payload evaluation produced invalid JSON: " ++ payload))
      else
        let looped := subscriberLoop env a.Resthook payload resthook.subscribers []
          [Event.resthookCalled a.Resthook payload]
        match looped.2 with
        | none => (run, looped.1, none)
        | some calls =>
          let asResult := pickResultCall calls
          let run1 := match asResult with
            | some c => { run with webhook := env.jsonToXValue (env.extractResponseJSON c.response) }
            | none => run
          if a.ResultName != "" then
            match asResult with
            | some c =>
              (saveWebhookResult run1 a.ResultName c (callStatus c true) false, looped.1, none)
            | none => (saveResult run1 a.ResultName "no subscribers" "Failure", looped.1, none)
          else
            (run1, looped.1, none)

/-- The header-evaluation loop of `CallWebhookAction.call` (call_webhook.go
lines 120-127): evaluate each header value as a template, log evaluation
errors, and add the header. -/
def addHeaders (env : Env) (headers : List (String × String))
    (req : HttpRequest) (evs : List Event) : HttpRequest × List Event :=
  headers.foldl
    (fun acc kv =>
      let hv := env.evalTemplate kv.2
      let evs1 := match hv.2 with
        | some e => acc.2 ++ [Event.errorEvent e]
        | none => acc.2
      ({ acc.1 with headers := acc.1.headers ++ [(kv.1, hv.1)] }, evs1))
    (req, evs)

/-- `CallWebhookAction.call` from call_webhook.go: build the request, add
headers, resolve the webhook service, make the call, and on completion log
a webhook_called event, set the webhook scratch and save a result. -/
def CallWebhookAction.call (a : CallWebhookAction) (env : Env) (run : RunState)
    (url method body : String) (evs : List Event) :
    RunState × List Event × Option GoErr :=
  match env.newRequest method url body with
  | Except.error e => (run, evs, some e)
  | Except.ok req0 =>
    let hr := addHeaders env a.Headers req0 evs
    match env.webhookService with
    | Except.error e => (run, hr.2 ++ [Event.errorEvent e], none)
    | Except.ok svc =>
      let res := svc hr.1
      let evs1 := match res.2 with
        | some e => hr.2 ++ [Event.errorEvent e]
        | none => hr.2
      match res.1 with
      | none => (run, evs1, none)
      | some call =>
        let status := callStatus call false
        let evs2 := evs1 ++ [Event.webhookCalled call status ""]
        let run1 := { run with webhook := env.jsonToXValue (env.extractResponseJSON call.response) }
        if a.ResultName != "" then
          (saveWebhookResult run1 a.ResultName call status a.ResponseAsExtra, evs2, none)
        else
          (run1, evs2, none)

/-- `CallWebhookAction.Execute` from call_webhook.go: evaluate the URL
template (error event on failure), reject empty or unparseable URLs with an
error event, evaluate the body template, then delegate to `call`. -/
def CallWebhookAction.Execute (a : CallWebhookAction) (env : Env) (run : RunState) :
    RunState × List Event × Option GoErr :=
  let urlRes := env.evalTemplate a.URL
  let url := urlRes.1
  let evs0 := match urlRes.2 with
    | some e => [Event.errorEvent e]
    | none => ([] : List Event)
  if url == "" then
    (run, evs0 ++ [Event.errorEvent "webhook URL evaluated to empty string"], none)
  else if !(isValidURL env url) then
    (run, evs0 ++ [Event.errorEvent ("webhook URL evaluated to an invalid URL: " ++ url)], none)
  else
    let method := a.Method.toUpper
    let bodyVal := if a.Body != "" then (env.evalTemplate a.Body).1 else a.Body
    let evsB :=
      if a.Body != "" then
        match (env.evalTemplate a.Body).2 with
        | some e => evs0 ++ [Event.errorEvent e]
        | none => evs0
      else evs0
    CallWebhookAction.call a env run url method bodyVal evsB

/-- Opaque session type (out of scope): the empty factories ignore it. -/
def Session : Type := Unit

/-- Opaque capability interface types from the flows package (out of scope
here); only their identity as possibly-nil values matters. -/
def EmailService : Type := Unit

def ClassificationService : Type := Unit

def TicketService : Type := Unit

def AirtimeService : Type := Unit

def ExternalServiceService : Type := Unit

def MsgCatalogService : Type := Unit

def Classifier : Type := Unit

def Ticketer : Type := Unit

def ExternalService : Type := Unit

def MsgCatalog : Type := Unit

/-- `services` from engine/services.go: one factory per capability.  Each
factory returns a possibly nil implementation together with a possibly
non-nil error, mirroring the Go `(T, error)` pair. -/
structure services where
  email : Session → Option EmailService × Option GoErr
  webhook : Session → Option WebhookSvc × Option GoErr
  classification : Session → Classifier → Option ClassificationService × Option GoErr
  ticket : Session → Ticketer → Option TicketService × Option GoErr
  airtime : Session → Option AirtimeService × Option GoErr
  externalService : Session → ExternalService → Option ExternalServiceService × Option GoErr
  msgCatalog : Session → MsgCatalog → Option MsgCatalogService × Option GoErr

/-- `newEmptyServices` from engine/services.go: every factory is unset and
returns a nil service with a configuration error (the msgCatalog factory
reuses the external-service message, as in the source). -/
def newEmptyServices : services where
  email := fun _ => (none, some "no email service factory configured")
  webhook := fun _ => (none, some "no webhook service factory configured")
  classification := fun _ _ => (none, some "no classification service factory configured")
  ticket := fun _ _ => (none, some "no ticket service factory configured")
  airtime := fun _ => (none, some "no airtime service factory configured")
  externalService := fun _ _ => (none, some "no external service factory configured")
  msgCatalog := fun _ _ => (none, some "no external service factory configured")

/-- `services.Email` accessor from engine/services.go. -/
def services.Email (s : services) (session : Session) : Option EmailService × Option GoErr :=
  s.email session

/-- `services.Webhook` accessor from engine/services.go. -/
def services.Webhook (s : services) (session : Session) : Option WebhookSvc × Option GoErr :=
  s.webhook session

/-- `services.Classification` accessor from engine/services.go. -/
def services.Classification (s : services) (session : Session) (c : Classifier) :
    Option ClassificationService × Option GoErr :=
  s.classification session c

/-- `services.Ticket` accessor from engine/services.go. -/
def services.Ticket (s : services) (session : Session) (t : Ticketer) :
    Option TicketService × Option GoErr :=
  s.ticket session t

/-- `services.Airtime` accessor from engine/services.go. -/
def services.Airtime (s : services) (session : Session) : Option AirtimeService × Option GoErr :=
  s.airtime session

/-- `services.ExternalService` accessor from engine/services.go. -/
def services.ExternalService (s : services) (session : Session) (e : ExternalService) :
    Option ExternalServiceService × Option GoErr :=
  s.externalService session e

/-- `services.MsgCatalog` accessor from engine/services.go. -/
def services.MsgCatalog (s : services) (session : Session) (m : MsgCatalog) :
    Option MsgCatalogService × Option GoErr :=
  s.msgCatalog session m

/-- Whether an event is a webhook_called event. -/
def Event.isWebhookCalled : Event → Bool
  | Event.webhookCalled _ _ _ => true
  | _ => false

/-- Whether an event is a resthook_called event. -/
def Event.isResthookCalled : Event → Bool
  | Event.resthookCalled _ _ => true
  | _ => false

/-- Whether an event is an error event. -/
def Event.isErrorEvent : Event → Bool
  | Event.errorEvent _ => true
  | _ => false

/-- A call in the 2xx range, as tested by pickResultCall and callStatus. -/
def is2xx (c : WebhookCall) : Bool := c.statusCode / 100 == 2

/-- A call with status 410 (subscriber gone). -/
def is410 (c : WebhookCall) : Bool := c.statusCode == 410

/-- A call counted as a failure by pickResultCall: neither 2xx nor 410. -/
def isRhFailure (c : WebhookCall) : Bool := !(is2xx c) && !(is410 c)

/-- First-some choice on options (Go's "latest assignment wins" read). -/
def orOpt {α : Type} (a b : Option α) : Option α :=
  match a with
  | some x => some x
  | none => b

lemma orOpt_none {α : Type} (a : Option α) : orOpt a none = a := by
  cases a <;> rfl

lemma orOpt_if {α : Type} (b : Bool) (x : α) (y : Option α) :
    orOpt (if b then some x else none) y = if b then some x else y := by
  cases b <;> rfl

lemma find?_append_or {α : Type} (p : α → Bool) (l1 l2 : List α) :
    (l1 ++ l2).find? p = orOpt (l1.find? p) (l2.find? p) := by
  induction l1 with
  | nil => simp [orOpt]
  | cons a l ih =>
    by_cases h : p a
    · simp [List.find?_cons_of_pos _ h, orOpt]
    · simp [List.find?_cons_of_neg _ h, ih]

lemma orOpt_assoc {α : Type} (a b c : Option α) :
    orOpt (orOpt a b) c = orOpt a (orOpt b c) := by
  cases a <;> cases b <;> rfl

lemma pickStep_eq (acc : Option WebhookCall × Option WebhookCall × Option WebhookCall)
    (c : WebhookCall) :
    pickStep acc c = (if is2xx c then some c else acc.1,
                      if is410 c then some c else acc.2.1,
                      if isRhFailure c then some c else acc.2.2) := by
  by_cases h2 : c.statusCode / 100 = 2
  · by_cases h4 : c.statusCode = 410
    · exfalso; rw [h4] at h2; omega
    · simp [pickStep, is2xx, is410, isRhFailure, h2, h4]
  · by_cases h4 : c.statusCode = 410
    · simp [pickStep, is2xx, is410, isRhFailure, h2, h4]
    · simp [pickStep, is2xx, is410, isRhFailure, h2, h4]

lemma pickFold_eq (calls : List WebhookCall) :
    ∀ acc, calls.foldl pickStep acc =
      (orOpt (calls.reverse.find? is2xx) acc.1,
       orOpt (calls.reverse.find? is410) acc.2.1,
       orOpt (calls.reverse.find? isRhFailure) acc.2.2) := by
  induction calls with
  | nil => intro acc; simp [orOpt]
  | cons c cs ih =>
    intro acc
    rw [List.foldl_cons, ih (pickStep acc c)]
    have h1 : ([c].find? is2xx) = if is2xx c then some c else none := by
      by_cases h : is2xx c <;> simp [List.find?, h]
    have h4 : ([c].find? is410) = if is410 c then some c else none := by
      by_cases h : is410 c <;> simp [List.find?, h]
    have hf : ([c].find? isRhFailure) = if isRhFailure c then some c else none := by
      by_cases h : isRhFailure c <;> simp [List.find?, h]
    simp only [pickStep_eq, List.reverse_cons, find?_append_or, h1, h4, hf,
      orOpt_assoc, orOpt_if]

lemma any_false_find?_none {α : Type} (p : α → Bool) (l : List α)
    (h : l.any p = false) : l.reverse.find? p = none := by
  apply List.find?_eq_none.mpr
  intro x hx hpx
  have htrue : l.any p = true := List.any_eq_true.mpr ⟨x, List.mem_reverse.mp hx, hpx⟩
  rw [h] at htrue
  exact Bool.false_ne_true htrue

lemma pickResultCall_cases (calls : List WebhookCall) :
    pickResultCall calls =
      match calls.reverse.find? isRhFailure with
      | some lastFailure => some lastFailure
      | none =>
        match calls.reverse.find? is2xx with
        | some lastSuccess => some lastSuccess
        | none => calls.reverse.find? is410 := by
  unfold pickResultCall
  rw [pickFold_eq]
  simp [orOpt_none]

/-- C1: For every list of subscriber webhook calls made by the call_resthook
action, the single call chosen by `pickResultCall` to become the action's
result follows this precedence: if any call has a status code that is
neither 2xx nor 410, the last such call is chosen; otherwise if any call has
a 2xx status code, the last 2xx call is chosen; otherwise the last 410 call
is chosen ("last such call" is the first match on the reversed list). -/
theorem pickResultCall_precedence (calls : List WebhookCall) :
    (calls.any isRhFailure = true →
        pickResultCall calls = calls.reverse.find? isRhFailure) ∧
    (calls.any isRhFailure = false → calls.any is2xx = true →
        pickResultCall calls = calls.reverse.find? is2xx) ∧
    (calls.any isRhFailure = false → calls.any is2xx = false →
        pickResultCall calls = calls.reverse.find? is410) := by
  refine ⟨?_, ?_, ?_⟩
  · intro hany
    obtain ⟨x, hx, hpx⟩ := List.any_eq_true.mp hany
    cases hfind : calls.reverse.find? isRhFailure with
    | none =>
      exact absurd hpx (by simpa using List.find?_eq_none.mp hfind x (List.mem_reverse.mpr hx))
    | some v => rw [pickResultCall_cases, hfind]
  · intro hnf hany
    have hfn := any_false_find?_none isRhFailure calls hnf
    obtain ⟨x, hx, hpx⟩ := List.any_eq_true.mp hany
    cases hfind : calls.reverse.find? is2xx with
    | none =>
      exact absurd hpx (by simpa using List.find?_eq_none.mp hfind x (List.mem_reverse.mpr hx))
    | some v => rw [pickResultCall_cases, hfn, hfind]
  · intro hnf hns
    have hfn := any_false_find?_none isRhFailure calls hnf
    have hsn := any_false_find?_none is2xx calls hns
    rw [pickResultCall_cases, hfn, hsn]

/-- A 200 response from subscriber u1 (concrete test fixture). -/
def w200 : WebhookCall := ⟨"u1", "POST", 200, "req", "OK"⟩

/-- A 410 response from subscriber u2 (concrete test fixture). -/
def w410 : WebhookCall := ⟨"u2", "POST", 410, "req", "gone"⟩

/-- A 500 response from subscriber u3 (concrete test fixture). -/
def w500 : WebhookCall := ⟨"u3", "POST", 500, "req", "boom"⟩

/-- Initial run state for the concrete executions. -/
def run0 : RunState := ⟨"", []⟩

/-- The resthook action used in the concrete executions. -/
def rhAction3 : CallResthookAction := ⟨"new-registration", "Result"⟩

/-- A webhook service answering 200, 410 and 500 for the three subscriber
URLs respectively. -/
def svc3 : WebhookSvc := fun req =>
  if req.url = "u1" then (some w200, none)
  else if req.url = "u2" then (some w410, none)
  else (some w500, none)

/-- Environment with a three-subscriber resthook whose subscribers answer
200, 410 and 500 respectively. -/
def env3 : Env where
  findResthook := fun s => if s = "new-registration" then some ⟨["u1", "u2", "u3"]⟩ else none
  evalTemplate := fun _ => ("\x7b\x7d", none)
  jsonValid := fun _ => true
  urlParseOk := fun _ => true
  newRequest := fun m u b => Except.ok ⟨m, u, b, []⟩
  webhookService := Except.ok svc3
  extractResponseJSON := fun s => s
  jsonToXValue := fun s => s

theorem pickResultCall_precedence_witness :
    pickResultCall [w200, w410, w500] = some w500 ∧
    pickResultCall [w200, w410] = some w200 ∧
    pickResultCall [w410] = some w410 ∧
    (CallResthookAction.Execute rhAction3 env3 run0).1.results
      = [("Result", ⟨"500", "Failure", some w500⟩)] := by
  refine ⟨?_, ?_, ?_, ?_⟩
  · rw [(pickResultCall_precedence [w200, w410, w500]).1 (by decide)]; decide
  · rw [(pickResultCall_precedence [w200, w410]).2.1 (by decide) (by decide)]; decide
  · rw [(pickResultCall_precedence [w410]).2.2 (by decide) (by decide)]; decide
  · decide

lemma resthook_exec_noop (a : CallResthookAction) (env : Env) (run : RunState)
    (hf : env.findResthook a.Resthook = none) :
    CallResthookAction.Execute a env run = (run, [], none) := by
  unfold CallResthookAction.Execute
  rw [hf]

lemma resthook_exec_evalerr (a : CallResthookAction) (env : Env) (run : RunState)
    (e : GoErr) (rh : Resthook) (hf : env.findResthook a.Resthook = some rh)
    (hp : (env.evalTemplate ResthookPayload).2 = some e) :
    CallResthookAction.Execute a env run =
      (run, [], some ("error evaluating resthook payload: " ++ e)) := by
  unfold CallResthookAction.Execute
  rw [hf]
  simp only [hp]

lemma resthook_exec_invalid (a : CallResthookAction) (env : Env) (run : RunState)
    (rh : Resthook) (hf : env.findResthook a.Resthook = some rh)
    (hp : (env.evalTemplate ResthookPayload).2 = none)
    (hv : env.jsonValid (env.evalTemplate ResthookPayload).1 = false) :
    CallResthookAction.Execute a env run =
      (run, [], some ("resthook payload evaluation produced invalid JSON: "
        ++ (env.evalTemplate ResthookPayload).1)) := by
  unfold CallResthookAction.Execute
  rw [hf]
  simp only [hp, hv]
  simp

lemma resthook_exec_valid (a : CallResthookAction) (env : Env) (run : RunState)
    (rh : Resthook) (hf : env.findResthook a.Resthook = some rh)
    (hp : (env.evalTemplate ResthookPayload).2 = none)
    (hv : env.jsonValid (env.evalTemplate ResthookPayload).1 = true) :
    CallResthookAction.Execute a env run =
      (let payload := (env.evalTemplate ResthookPayload).1
       let looped := subscriberLoop env a.Resthook payload rh.subscribers []
         [Event.resthookCalled a.Resthook payload]
       match looped.2 with
       | none => (run, looped.1, none)
       | some calls =>
         let asResult := pickResultCall calls
         let run1 := match asResult with
           | some c => { run with webhook := env.jsonToXValue (env.extractResponseJSON c.response) }
           | none => run
         if a.ResultName != "" then
           match asResult with
           | some c =>
             (saveWebhookResult run1 a.ResultName c (callStatus c true) false, looped.1, none)
           | none => (saveResult run1 a.ResultName "no subscribers" "Failure", looped.1, none)
         else
           (run1, looped.1, none)) := by
  unfold CallResthookAction.Execute
  rw [hf]
  simp only [hp, hv]
  simp

lemma resthook_exec_err_cases (a : CallResthookAction) (env : Env) (run : RunState)
    (h : ((CallResthookAction.Execute a env run).2.2).isSome = true) :
    ∃ rh, env.findResthook a.Resthook = some rh ∧
      ((∃ e, (env.evalTemplate ResthookPayload).2 = some e) ∨
        ((env.evalTemplate ResthookPayload).2 = none ∧
         env.jsonValid (env.evalTemplate ResthookPayload).1 = false)) ∧
      (CallResthookAction.Execute a env run).2.1 = [] := by
  cases hf : env.findResthook a.Resthook with
  | none =>
    rw [resthook_exec_noop a env run hf] at h
    simp at h
  | some rh =>
    cases hp : (env.evalTemplate ResthookPayload).2 with
    | some e =>
      refine ⟨rh, rfl, Or.inl ⟨e, rfl⟩, ?_⟩
      rw [resthook_exec_evalerr a env run e rh hf hp]
    | none =>
      cases hv : env.jsonValid (env.evalTemplate ResthookPayload).1 with
      | false =>
        refine ⟨rh, rfl, Or.inr ⟨rfl, rfl⟩, ?_⟩
        rw [resthook_exec_invalid a env run rh hf hp hv]
      | true =>
        exfalso
        rw [resthook_exec_valid a env run rh hf hp hv] at h
        simp only [] at h
        split at h
        · simp at h
        · split at h
          · split at h
            · simp at h
            · simp at h
          · simp at h

/-- C2: For every execution of the call_resthook action whose slug
resolves, if the evaluated canonical payload is not valid JSON then Execute
returns a non-nil error, and no event (in particular no resthook_called
event) is appended first; conversely a returned error only ever arises from
payload evaluation failing or producing invalid JSON, every other fault
being surfaced as an event. -/
theorem resthook_payload_must_be_json (a : CallResthookAction) (env : Env) (run : RunState) :
    (∀ rh, env.findResthook a.Resthook = some rh →
      (env.evalTemplate ResthookPayload).2 = none →
      env.jsonValid (env.evalTemplate ResthookPayload).1 = false →
      ((CallResthookAction.Execute a env run).2.2).isSome = true ∧
        (CallResthookAction.Execute a env run).2.1 = []) ∧
    (((CallResthookAction.Execute a env run).2.2).isSome = true →
      ((env.evalTemplate ResthookPayload).2 ≠ none ∨
        env.jsonValid (env.evalTemplate ResthookPayload).1 = false) ∧
        (CallResthookAction.Execute a env run).2.1 = []) := by
  constructor
  · intro rh hf hp hv
    rw [resthook_exec_invalid a env run rh hf hp hv]
    simp
  · intro h
    obtain ⟨rh, _, hcause, hevs⟩ := resthook_exec_err_cases a env run h
    refine ⟨?_, hevs⟩
    cases hcause with
    | inl he =>
      obtain ⟨e, he⟩ := he
      exact Or.inl (by rw [he]; simp)
    | inr hi => exact Or.inr hi.2

/-- An environment whose payload evaluation yields invalid JSON. -/
def envBadJson : Env := { env3 with jsonValid := fun _ => false }

theorem resthook_payload_must_be_json_witness :
    ((CallResthookAction.Execute rhAction3 envBadJson run0).2.2).isSome = true ∧
    (CallResthookAction.Execute rhAction3 envBadJson run0).2.1 = [] :=
  (resthook_payload_must_be_json rhAction3 envBadJson run0).1
    ⟨["u1", "u2", "u3"]⟩ (by decide) (by decide) (by decide)

/-- Shape of events appendable by the call_webhook action: error events,
and webhook_called events whose status was computed by `callStatus` with
`isResthook = false` and whose resthook slug is empty; never a
resthook_called event. -/
def webhookEventOk (ev : Event) : Prop :=
  match ev with
  | Event.webhookCalled c s r => s = callStatus c false ∧ r = ""
  | Event.resthookCalled _ _ => False
  | Event.errorEvent _ => True

lemma addHeaders_events (env : Env) (hs : List (String × String)) :
    ∀ req evs, ∃ extra, (addHeaders env hs req evs).2 = evs ++ extra ∧
      ∀ e ∈ extra, e.isErrorEvent = true := by
  induction hs with
  | nil =>
    intro req evs
    exact ⟨[], by simp [addHeaders], by simp⟩
  | cons kv rest ih =>
    intro req evs
    have step : addHeaders env (kv :: rest) req evs =
        addHeaders env rest
          ({ req with headers := req.headers ++ [(kv.1, (env.evalTemplate kv.2).1)] })
          (match (env.evalTemplate kv.2).2 with
            | some e => evs ++ [Event.errorEvent e]
            | none => evs) := rfl
    rw [step]
    cases he : (env.evalTemplate kv.2).2 with
    | none =>
      obtain ⟨extra, hx, hall⟩ :=
        ih { req with headers := req.headers ++ [(kv.1, (env.evalTemplate kv.2).1)] } evs
      exact ⟨extra, by simp only [he]; exact hx, hall⟩
    | some e =>
      obtain ⟨extra, hx, hall⟩ :=
        ih { req with headers := req.headers ++ [(kv.1, (env.evalTemplate kv.2).1)] }
          (evs ++ [Event.errorEvent e])
      refine ⟨[Event.errorEvent e] ++ extra, by simp only [he]; rw [hx]; simp, ?_⟩
      intro ev hev
      rcases List.mem_append.mp hev with h | h
      · simp at h; subst h; rfl
      · exact hall ev h

lemma errorEvent_ok (ev : Event) (h : ev.isErrorEvent = true) : webhookEventOk ev := by
  cases ev with
  | errorEvent m => trivial
  | resthookCalled s p => simp [Event.isErrorEvent] at h
  | webhookCalled c s r => simp [Event.isErrorEvent] at h

lemma webhook_call_events (a : CallWebhookAction) (env : Env) (run : RunState)
    (url method body : String) (evs : List Event) :
    ∃ extra, (CallWebhookAction.call a env run url method body evs).2.1 = evs ++ extra ∧
      ∀ ev ∈ extra, webhookEventOk ev := by
  unfold CallWebhookAction.call
  cases hr : env.newRequest method url body with
  | error e => exact ⟨[], by simp, by simp⟩
  | ok req0 =>
    obtain ⟨extraH, hH, hHok⟩ := addHeaders_events env a.Headers req0 evs
    cases hs : env.webhookService with
    | error e =>
      refine ⟨extraH ++ [Event.errorEvent e], ?_, ?_⟩
      · simp only [hH]
        simp
      · intro ev hev
        rcases List.mem_append.mp hev with h | h
        · exact errorEvent_ok ev (hHok ev h)
        · simp at h; subst h; trivial
    | ok svc =>
      cases h2 : (svc (addHeaders env a.Headers req0 evs).1).2 with
      | none =>
        cases h1 : (svc (addHeaders env a.Headers req0 evs).1).1 with
        | none =>
          refine ⟨extraH, ?_, fun ev h => errorEvent_ok ev (hHok ev h)⟩
          simp only [h1, h2, hH]
        | some call =>
          refine ⟨extraH ++ [Event.webhookCalled call (callStatus call false) ""], ?_, ?_⟩
          · simp only [h1, h2, hH]
            split <;> simp
          · intro ev hev
            rcases List.mem_append.mp hev with h | h
            · exact errorEvent_ok ev (hHok ev h)
            · simp at h; subst h; exact ⟨rfl, rfl⟩
      | some e2 =>
        cases h1 : (svc (addHeaders env a.Headers req0 evs).1).1 with
        | none =>
          refine ⟨extraH ++ [Event.errorEvent e2], ?_, ?_⟩
          · simp only [h1, h2, hH]
            simp
          · intro ev hev
            rcases List.mem_append.mp hev with h | h
            · exact errorEvent_ok ev (hHok ev h)
            · simp at h; subst h; trivial
        | some call =>
          refine ⟨extraH ++ [Event.errorEvent e2,
            Event.webhookCalled call (callStatus call false) ""], ?_, ?_⟩
          · simp only [h1, h2, hH]
            split <;> simp
          · intro ev hev
            rcases List.mem_append.mp hev with h | h
            · exact errorEvent_ok ev (hHok ev h)
            · simp at h
              rcases h with h | h <;> subst h
              · trivial
              · exact ⟨rfl, rfl⟩

lemma webhook_call_events_ok (a : CallWebhookAction) (env : Env) (run : RunState)
    (url method body : String) (evs : List Event)
    (hin : ∀ ev ∈ evs, webhookEventOk ev) :
    ∀ ev ∈ (CallWebhookAction.call a env run url method body evs).2.1, webhookEventOk ev := by
  obtain ⟨extra, heq, hall⟩ := webhook_call_events a env run url method body evs
  rw [heq]
  intro ev hev
  rcases List.mem_append.mp hev with h | h
  · exact hin ev h
  · exact hall ev h

/-- The error events produced while evaluating the URL template. -/
def urlEvents (env : Env) (a : CallWebhookAction) : List Event :=
  match (env.evalTemplate a.URL).2 with
  | some e => [Event.errorEvent e]
  | none => []

/-- The error events present after evaluating the URL and body templates. -/
def bodyEvents (env : Env) (a : CallWebhookAction) : List Event :=
  if a.Body != "" then
    match (env.evalTemplate a.Body).2 with
    | some e => urlEvents env a ++ [Event.errorEvent e]
    | none => urlEvents env a
  else urlEvents env a

lemma urlEvents_ok (env : Env) (a : CallWebhookAction) :
    ∀ ev ∈ urlEvents env a, webhookEventOk ev := by
  unfold urlEvents
  cases (env.evalTemplate a.URL).2 with
  | none => simp
  | some e => intro ev hev; simp at hev; subst hev; trivial

lemma bodyEvents_ok (env : Env) (a : CallWebhookAction) :
    ∀ ev ∈ bodyEvents env a, webhookEventOk ev := by
  unfold bodyEvents
  split
  · cases (env.evalTemplate a.Body).2 with
    | none => exact urlEvents_ok env a
    | some e =>
      intro ev hev
      rcases List.mem_append.mp hev with h | h
      · exact urlEvents_ok env a ev h
      · simp at h; subst h; trivial
  · exact urlEvents_ok env a

lemma webhook_exec_empty_url (a : CallWebhookAction) (env : Env) (run : RunState)
    (hu : (env.evalTemplate a.URL).1 = "") :
    CallWebhookAction.Execute a env run =
      (run, urlEvents env a ++ [Event.errorEvent "webhook URL evaluated to empty string"],
        none) := by
  unfold CallWebhookAction.Execute urlEvents
  simp [hu]

lemma webhook_exec_invalid_url (a : CallWebhookAction) (env : Env) (run : RunState)
    (hu : (env.evalTemplate a.URL).1 ≠ "")
    (hv : env.urlParseOk (env.evalTemplate a.URL).1 = false) :
    CallWebhookAction.Execute a env run =
      (run, urlEvents env a ++
        [Event.errorEvent ("webhook URL evaluated to an invalid URL: "
          ++ (env.evalTemplate a.URL).1)], none) := by
  unfold CallWebhookAction.Execute urlEvents isValidURL
  simp [hu, hv]

lemma webhook_exec_valid_url (a : CallWebhookAction) (env : Env) (run : RunState)
    (hu : (env.evalTemplate a.URL).1 ≠ "")
    (hv : env.urlParseOk (env.evalTemplate a.URL).1 = true) :
    CallWebhookAction.Execute a env run =
      CallWebhookAction.call a env run (env.evalTemplate a.URL).1 a.Method.toUpper
        (if a.Body != "" then (env.evalTemplate a.Body).1 else a.Body)
        (bodyEvents env a) := by
  unfold CallWebhookAction.Execute bodyEvents urlEvents isValidURL
  simp [hu, hv]

lemma webhook_exec_events_ok (a : CallWebhookAction) (env : Env) (run : RunState) :
    ∀ ev ∈ (CallWebhookAction.Execute a env run).2.1, webhookEventOk ev := by
  by_cases hu : (env.evalTemplate a.URL).1 = ""
  · rw [webhook_exec_empty_url a env run hu]
    intro ev hev
    rcases (by simpa using hev :
        ev ∈ urlEvents env a ∨
          ev = Event.errorEvent "webhook URL evaluated to empty string") with h | h
    · exact urlEvents_ok env a ev h
    · subst h; trivial
  · cases hv : env.urlParseOk (env.evalTemplate a.URL).1 with
    | false =>
      rw [webhook_exec_invalid_url a env run hu hv]
      intro ev hev
      rcases (by simpa using hev :
          ev ∈ urlEvents env a ∨
            ev = Event.errorEvent ("webhook URL evaluated to an invalid URL: "
              ++ (env.evalTemplate a.URL).1)) with h | h
      · exact urlEvents_ok env a ev h
      · subst h; trivial
    | true =>
      rw [webhook_exec_valid_url a env run hu hv]
      exact webhook_call_events_ok a env run _ _ _ _ (bodyEvents_ok env a)

lemma callStatus_webhook_eq (c : WebhookCall) :
    callStatus c false = if c.statusCode = 0 then CallStatus.connectionError
      else if c.statusCode / 100 = 2 then CallStatus.success
      else CallStatus.responseError := by
  simp [callStatus]

/-- C3: For every completed webhook call made by the call_webhook action
(not a resthook), the status recorded in the webhook_called event is
connection_error when the status code is 0, success when the status code
is in the 2xx range, and response_error for every other status code: every
webhook_called event emitted by Execute carries `callStatus call false`,
which realizes exactly that mapping. -/
theorem webhook_status_mapping (a : CallWebhookAction) (env : Env) (run : RunState) :
    (∀ c s r, Event.webhookCalled c s r ∈ (CallWebhookAction.Execute a env run).2.1 →
      s = callStatus c false) ∧
    (∀ c : WebhookCall,
      (c.statusCode = 0 → callStatus c false = CallStatus.connectionError) ∧
      (200 ≤ c.statusCode → c.statusCode ≤ 299 → callStatus c false = CallStatus.success) ∧
      (c.statusCode ≠ 0 → c.statusCode < 200 ∨ 299 < c.statusCode →
        callStatus c false = CallStatus.responseError)) := by
  constructor
  · intro c s r hmem
    have h := webhook_exec_events_ok a env run _ hmem
    exact h.1
  · intro c
    refine ⟨?_, ?_, ?_⟩
    · intro h
      rw [callStatus_webhook_eq]
      simp [h]
    · intro h1 h2
      have hz : c.statusCode ≠ 0 := by omega
      have hd : c.statusCode / 100 = 2 := by omega
      rw [callStatus_webhook_eq]
      simp [hz, hd]
    · intro hz hr
      have hd : c.statusCode / 100 ≠ 2 := by omega
      rw [callStatus_webhook_eq]
      simp [hz, hd]

/-- The webhook action used in the concrete executions. -/
def whAction : CallWebhookAction := ⟨"GET", "http://x", [], "", "", false⟩

/-- Environment whose webhook service answers with a 410 response. -/
def envW410 : Env := { env3 with webhookService := Except.ok fun _ => (some w410, none) }

/-- Environment whose webhook service answers with a 200 response. -/
def envW200 : Env := { env3 with webhookService := Except.ok fun _ => (some w200, none) }

theorem webhook_status_mapping_witness :
    CallStatus.responseError = callStatus w410 false ∧
    callStatus w410 false = CallStatus.responseError ∧
    callStatus w200 false = CallStatus.success ∧
    callStatus ⟨"u", "GET", 0, "", ""⟩ false = CallStatus.connectionError := by
  refine ⟨?_, ?_, ?_, ?_⟩
  · exact (webhook_status_mapping whAction envW410 run0).1 w410
      CallStatus.responseError "" (by decide)
  · exact ((webhook_status_mapping whAction envW410 run0).2 w410).2.2
      (by decide) (by decide)
  · exact ((webhook_status_mapping whAction envW200 run0).2 w200).2.1
      (by decide) (by decide)
  · exact ((webhook_status_mapping whAction envW410 run0).2 ⟨"u", "GET", 0, "", ""⟩).1
      (by decide)

lemma errorEvent_not_webhookCalled (ev : Event) (h : ev.isErrorEvent = true) :
    ev.isWebhookCalled = false := by
  cases ev with
  | errorEvent m => rfl
  | resthookCalled s p => simp [Event.isErrorEvent] at h
  | webhookCalled c s r => simp [Event.isErrorEvent] at h

lemma urlEvents_errors (env : Env) (a : CallWebhookAction) :
    ∀ ev ∈ urlEvents env a, ev.isErrorEvent = true := by
  unfold urlEvents
  cases (env.evalTemplate a.URL).2 with
  | none => simp
  | some e => intro ev hev; simp at hev; subst hev; rfl

lemma bodyEvents_prefix (env : Env) (a : CallWebhookAction) :
    ∃ t, bodyEvents env a = urlEvents env a ++ t := by
  unfold bodyEvents
  split
  · cases (env.evalTemplate a.Body).2 with
    | none => exact ⟨[], by simp⟩
    | some e => exact ⟨[Event.errorEvent e], rfl⟩
  · exact ⟨[], by simp⟩

/-- C4: For every execution of the call_webhook action, if the URL template
evaluates to the empty string or to an invalid URL, the action appends an
error event, makes no HTTP call (no webhook_called event is appended), and
Execute returns nil with the run unchanged; a template evaluation error on
the URL alone produces an error event but does not abort the action, which
proceeds to make the call. -/
theorem webhook_url_validation (a : CallWebhookAction) (env : Env) (run : RunState) :
    ((env.evalTemplate a.URL).1 = "" →
      CallWebhookAction.Execute a env run =
        (run, urlEvents env a ++ [Event.errorEvent "webhook URL evaluated to empty string"],
          none) ∧
      ∀ ev ∈ (CallWebhookAction.Execute a env run).2.1, ev.isWebhookCalled = false) ∧
    ((env.evalTemplate a.URL).1 ≠ "" → env.urlParseOk (env.evalTemplate a.URL).1 = false →
      CallWebhookAction.Execute a env run =
        (run, urlEvents env a ++
          [Event.errorEvent ("webhook URL evaluated to an invalid URL: "
            ++ (env.evalTemplate a.URL).1)], none) ∧
      ∀ ev ∈ (CallWebhookAction.Execute a env run).2.1, ev.isWebhookCalled = false) ∧
    (∀ e, (env.evalTemplate a.URL).2 = some e → (env.evalTemplate a.URL).1 ≠ "" →
      env.urlParseOk (env.evalTemplate a.URL).1 = true →
      Event.errorEvent e ∈ (CallWebhookAction.Execute a env run).2.1 ∧
      CallWebhookAction.Execute a env run =
        CallWebhookAction.call a env run (env.evalTemplate a.URL).1 a.Method.toUpper
          (if a.Body != "" then (env.evalTemplate a.Body).1 else a.Body)
          (bodyEvents env a)) := by
  refine ⟨?_, ?_, ?_⟩
  · intro hu
    have hex := webhook_exec_empty_url a env run hu
    refine ⟨hex, ?_⟩
    rw [hex]
    intro ev hev
    rcases (by simpa using hev :
        ev ∈ urlEvents env a ∨
          ev = Event.errorEvent "webhook URL evaluated to empty string") with h | h
    · exact errorEvent_not_webhookCalled ev (urlEvents_errors env a ev h)
    · subst h; rfl
  · intro hu hv
    have hex := webhook_exec_invalid_url a env run hu hv
    refine ⟨hex, ?_⟩
    rw [hex]
    intro ev hev
    rcases (by simpa using hev :
        ev ∈ urlEvents env a ∨
          ev = Event.errorEvent ("webhook URL evaluated to an invalid URL: "
            ++ (env.evalTemplate a.URL).1)) with h | h
    · exact errorEvent_not_webhookCalled ev (urlEvents_errors env a ev h)
    · subst h; rfl
  · intro e he hu hv
    have hex := webhook_exec_valid_url a env run hu hv
    refine ⟨?_, hex⟩
    rw [hex]
    obtain ⟨extra, heq, _⟩ := webhook_call_events a env run (env.evalTemplate a.URL).1
      a.Method.toUpper (if a.Body != "" then (env.evalTemplate a.Body).1 else a.Body)
      (bodyEvents env a)
    rw [heq]
    obtain ⟨t, ht⟩ := bodyEvents_prefix env a
    have hurl : urlEvents env a = [Event.errorEvent e] := by
      unfold urlEvents
      rw [he]
    rw [ht, hurl]
    simp

/-- Environment whose template evaluation yields the empty string. -/
def envEmptyUrl : Env := { env3 with evalTemplate := fun _ => ("", none) }

/-- Environment whose URLs never parse. -/
def envBadUrl : Env := { env3 with urlParseOk := fun _ => false }

/-- Environment whose template evaluation returns a value and an error. -/
def envUrlErr : Env := { env3 with evalTemplate := fun _ => ("u1", some "eval boom") }

theorem webhook_url_validation_witness :
    (CallWebhookAction.Execute whAction envEmptyUrl run0 =
      (run0, [Event.errorEvent "webhook URL evaluated to empty string"], none)) ∧
    (CallWebhookAction.Execute whAction envBadUrl run0 =
      (run0, [Event.errorEvent ("webhook URL evaluated to an invalid URL: " ++ "\x7b\x7d")],
        none)) ∧
    Event.errorEvent "eval boom" ∈ (CallWebhookAction.Execute whAction envUrlErr run0).2.1 := by
  refine ⟨?_, ?_, ?_⟩
  · have h := ((webhook_url_validation whAction envEmptyUrl run0).1 (by decide)).1
    rw [h]; decide
  · have h := ((webhook_url_validation whAction envBadUrl run0).2.1 (by decide) (by decide)).1
    rw [h]; decide
  · exact ((webhook_url_validation whAction envUrlErr run0).2.2 "eval boom"
      (by decide) (by decide) (by decide)).1

/-- Shape of events appendable by the subscriber loop of call_resthook:
error events and webhook_called events whose status was computed by
`callStatus` with `isResthook = true` and which carry the resthook slug;
never a resthook_called event. -/
def resthookEventOk (slug : String) (ev : Event) : Prop :=
  match ev with
  | Event.webhookCalled c s r => s = callStatus c true ∧ r = slug
  | Event.resthookCalled _ _ => False
  | Event.errorEvent _ => True

lemma subscriberLoop_events (env : Env) (slug payload : String) (urls : List String) :
    ∀ calls evs, ∃ extra,
      (subscriberLoop env slug payload urls calls evs).1 = evs ++ extra ∧
      ∀ ev ∈ extra, resthookEventOk slug ev := by
  induction urls with
  | nil =>
    intro calls evs
    exact ⟨[], by simp [subscriberLoop], by simp⟩
  | cons u rest ih =>
    intro calls evs
    cases hreq : env.newRequest "POST" u payload with
    | error e =>
      refine ⟨[Event.errorEvent e], by simp [subscriberLoop, hreq], ?_⟩
      intro ev hev
      simp at hev
      subst hev
      trivial
    | ok req0 =>
      cases hs : env.webhookService with
      | error e =>
        refine ⟨[Event.errorEvent e], by simp [subscriberLoop, hreq, hs], ?_⟩
        intro ev hev
        simp at hev
        subst hev
        trivial
      | ok svc =>
        cases h2 : (svc { req0 with
            headers := req0.headers ++ [("Content-Type", "application/json")] }).2 with
        | none =>
          cases h1 : (svc { req0 with
              headers := req0.headers ++ [("Content-Type", "application/json")] }).1 with
          | none =>
            obtain ⟨extra, hx, hok⟩ := ih calls evs
            refine ⟨extra, ?_, hok⟩
            simp only [subscriberLoop, hreq, hs, h1, h2]
            exact hx
          | some call =>
            obtain ⟨extra, hx, hok⟩ := ih (calls ++ [call])
              (evs ++ [Event.webhookCalled call (callStatus call true) slug])
            refine ⟨[Event.webhookCalled call (callStatus call true) slug] ++ extra, ?_, ?_⟩
            · simp only [subscriberLoop, hreq, hs, h1, h2]
              rw [hx]
              simp
            · intro ev hev
              rcases List.mem_append.mp hev with h | h
              · simp at h; subst h; exact ⟨rfl, rfl⟩
              · exact hok ev h
        | some e2 =>
          cases h1 : (svc { req0 with
              headers := req0.headers ++ [("Content-Type", "application/json")] }).1 with
          | none =>
            obtain ⟨extra, hx, hok⟩ := ih calls (evs ++ [Event.errorEvent e2])
            refine ⟨[Event.errorEvent e2] ++ extra, ?_, ?_⟩
            · simp only [subscriberLoop, hreq, hs, h1, h2]
              rw [hx]
              simp
            · intro ev hev
              rcases List.mem_append.mp hev with h | h
              · simp at h; subst h; trivial
              · exact hok ev h
          | some call =>
            obtain ⟨extra, hx, hok⟩ := ih (calls ++ [call])
              (evs ++ [Event.errorEvent e2]
                ++ [Event.webhookCalled call (callStatus call true) slug])
            refine ⟨[Event.errorEvent e2,
              Event.webhookCalled call (callStatus call true) slug] ++ extra, ?_, ?_⟩
            · simp only [subscriberLoop, hreq, hs, h1, h2]
              rw [hx]
              simp
            · intro ev hev
              rcases List.mem_append.mp hev with h | h
              · simp at h
                rcases h with h | h <;> subst h
                · trivial
                · exact ⟨rfl, rfl⟩
              · exact hok ev h

lemma subscriberLoop_append (env : Env) (slug payload : String) (l1 l2 : List String) :
    ∀ calls evs,
      subscriberLoop env slug payload (l1 ++ l2) calls evs =
        match subscriberLoop env slug payload l1 calls evs with
        | (evs1, some calls1) => subscriberLoop env slug payload l2 calls1 evs1
        | (evs1, none) => (evs1, none) := by
  induction l1 with
  | nil => intro calls evs; simp [subscriberLoop]
  | cons u rest ih =>
    intro calls evs
    cases hreq : env.newRequest "POST" u payload with
    | error e => simp [subscriberLoop, hreq]
    | ok req0 =>
      cases hs : env.webhookService with
      | error e => simp [subscriberLoop, hreq, hs]
      | ok svc =>
        cases h1 : (svc { req0 with
            headers := req0.headers ++ [("Content-Type", "application/json")] }).1 with
        | some call => simp [subscriberLoop, hreq, hs, h1, ih]
        | none => simp [subscriberLoop, hreq, hs, h1, ih]

/-- The number of subscribers whose webhook call would produce a response
object under the given environment. -/
def respondedCount (env : Env) (payload : String) (urls : List String) : Nat :=
  urls.countP (fun u =>
    match env.newRequest "POST" u payload with
    | Except.error _ => false
    | Except.ok req0 =>
      match env.webhookService with
      | Except.error _ => false
      | Except.ok svc =>
        ((svc { req0 with
          headers := req0.headers ++ [("Content-Type", "application/json")] }).1).isSome)

lemma subscriberLoop_clean (env : Env) (slug payload : String) (urls : List String)
    (svc : WebhookSvc) (hs : env.webhookService = Except.ok svc) :
    ∀ calls evs, (∀ u ∈ urls, (env.newRequest "POST" u payload).isOk = true) →
      ((subscriberLoop env slug payload urls calls evs).2).isSome = true ∧
      ((subscriberLoop env slug payload urls calls evs).1).countP Event.isWebhookCalled =
        evs.countP Event.isWebhookCalled + respondedCount env payload urls := by
  induction urls with
  | nil =>
    intro calls evs _
    simp [subscriberLoop, respondedCount]
  | cons u rest ih =>
    intro calls evs hreq
    have hu := hreq u (List.mem_cons_self u rest)
    have hrest : ∀ v ∈ rest, (env.newRequest "POST" v payload).isOk = true :=
      fun v hv => hreq v (List.mem_cons_of_mem u hv)
    cases hreqU : env.newRequest "POST" u payload with
    | error e =>
      rw [hreqU] at hu
      simp [Except.isOk, Except.toBool] at hu
    | ok req0 =>
      have hcount : respondedCount env payload (u :: rest) =
          respondedCount env payload rest +
          (if ((svc { req0 with
              headers := req0.headers ++ [("Content-Type", "application/json")] }).1).isSome
            then 1 else 0) := by
        unfold respondedCount
        rw [List.countP_cons]
        simp only [hreqU, hs]
      cases h1 : (svc { req0 with
          headers := req0.headers ++ [("Content-Type", "application/json")] }).1 with
      | none =>
        rw [h1] at hcount
        simp only [Option.isSome_none, Bool.false_eq_true, if_false, Nat.add_zero] at hcount
        cases h2 : (svc { req0 with
            headers := req0.headers ++ [("Content-Type", "application/json")] }).2 with
        | none =>
          have step : subscriberLoop env slug payload (u :: rest) calls evs =
              subscriberLoop env slug payload rest calls evs := by
            simp [subscriberLoop, hreqU, hs, h1, h2]
          rw [step, hcount]
          exact ih calls evs hrest
        | some e2 =>
          have step : subscriberLoop env slug payload (u :: rest) calls evs =
              subscriberLoop env slug payload rest calls (evs ++ [Event.errorEvent e2]) := by
            simp [subscriberLoop, hreqU, hs, h1, h2]
          obtain ⟨hsome, hcnt⟩ := ih calls (evs ++ [Event.errorEvent e2]) hrest
          rw [step, hcount]
          refine ⟨hsome, ?_⟩
          rw [hcnt, List.countP_append]
          simp [List.countP, List.countP.go, Event.isWebhookCalled]
      | some call =>
        rw [h1] at hcount
        simp only [Option.isSome_some, if_true] at hcount
        cases h2 : (svc { req0 with
            headers := req0.headers ++ [("Content-Type", "application/json")] }).2 with
        | none =>
          have step : subscriberLoop env slug payload (u :: rest) calls evs =
              subscriberLoop env slug payload rest (calls ++ [call])
                (evs ++ [Event.webhookCalled call (callStatus call true) slug]) := by
            simp [subscriberLoop, hreqU, hs, h1, h2]
          obtain ⟨hsome, hcnt⟩ := ih (calls ++ [call])
            (evs ++ [Event.webhookCalled call (callStatus call true) slug]) hrest
          rw [step, hcount]
          refine ⟨hsome, ?_⟩
          rw [hcnt, List.countP_append]
          simp [List.countP, List.countP.go, Event.isWebhookCalled]
          omega
        | some e2 =>
          have step : subscriberLoop env slug payload (u :: rest) calls evs =
              subscriberLoop env slug payload rest (calls ++ [call])
                (evs ++ [Event.errorEvent e2]
                  ++ [Event.webhookCalled call (callStatus call true) slug]) := by
            simp [subscriberLoop, hreqU, hs, h1, h2]
          obtain ⟨hsome, hcnt⟩ := ih (calls ++ [call])
            (evs ++ [Event.errorEvent e2]
              ++ [Event.webhookCalled call (callStatus call true) slug]) hrest
          rw [step, hcount]
          refine ⟨hsome, ?_⟩
          rw [hcnt, List.countP_append, List.countP_append]
          simp [List.countP, List.countP.go, Event.isWebhookCalled]
          omega

lemma resthook_exec_valid_events (a : CallResthookAction) (env : Env) (run : RunState)
    (rh : Resthook) (hf : env.findResthook a.Resthook = some rh)
    (hp : (env.evalTemplate ResthookPayload).2 = none)
    (hv : env.jsonValid (env.evalTemplate ResthookPayload).1 = true) :
    (CallResthookAction.Execute a env run).2.1 =
      (subscriberLoop env a.Resthook (env.evalTemplate ResthookPayload).1 rh.subscribers []
        [Event.resthookCalled a.Resthook (env.evalTemplate ResthookPayload).1]).1 := by
  rw [resthook_exec_valid a env run rh hf hp hv]
  cases hL : (subscriberLoop env a.Resthook (env.evalTemplate ResthookPayload).1 rh.subscribers []
      [Event.resthookCalled a.Resthook (env.evalTemplate ResthookPayload).1]).2 with
  | none => simp [hL]
  | some calls =>
    simp only [hL]
    split
    · split <;> simp
    · simp

lemma resthook_exec_webhook_events (a : CallResthookAction) (env : Env) (run : RunState) :
    ∀ c s r, Event.webhookCalled c s r ∈ (CallResthookAction.Execute a env run).2.1 →
      s = callStatus c true ∧ r = a.Resthook := by
  intro c s r hmem
  cases hf : env.findResthook a.Resthook with
  | none =>
    rw [resthook_exec_noop a env run hf] at hmem
    simp at hmem
  | some rh =>
    cases hp : (env.evalTemplate ResthookPayload).2 with
    | some e =>
      rw [resthook_exec_evalerr a env run e rh hf hp] at hmem
      simp at hmem
    | none =>
      cases hv : env.jsonValid (env.evalTemplate ResthookPayload).1 with
      | false =>
        rw [resthook_exec_invalid a env run rh hf hp hv] at hmem
        simp at hmem
      | true =>
        rw [resthook_exec_valid_events a env run rh hf hp hv] at hmem
        obtain ⟨extra, hx, hok⟩ := subscriberLoop_events env a.Resthook
          (env.evalTemplate ResthookPayload).1 rh.subscribers []
          [Event.resthookCalled a.Resthook (env.evalTemplate ResthookPayload).1]
        rw [hx] at hmem
        rcases List.mem_append.mp hmem with h | h
        · simp at h
        · exact hok _ h

/-- C6: For every execution of the call_resthook action whose slug does not
resolve to a known resthook, Execute is a no-op: it returns nil, appends no
events, saves no result, and leaves the run state (including the webhook
scratch value) unchanged. -/
theorem resthook_unknown_slug_noop (a : CallResthookAction) (env : Env) (run : RunState)
    (hf : env.findResthook a.Resthook = none) :
    CallResthookAction.Execute a env run = (run, [], none) :=
  resthook_exec_noop a env run hf

theorem resthook_unknown_slug_noop_witness :
    CallResthookAction.Execute ⟨"missing", "Result"⟩ env3 run0 = (run0, [], none) :=
  resthook_unknown_slug_noop ⟨"missing", "Result"⟩ env3 run0 (by decide)

/-- C8: For every webhook call made by the call_webhook action, a 410
response is recorded as response_error, never subscriber_gone: callStatus
with isResthook = false never yields subscriber_gone, and the webhook
action invokes callStatus with false while the resthook action invokes it
with true (as witnessed by the statuses on the emitted webhook_called
events). -/
theorem webhook_never_subscriber_gone (a : CallWebhookAction) (env : Env) (run : RunState) :
    (∀ c : WebhookCall, callStatus c false ≠ CallStatus.subscriberGone) ∧
    (∀ c : WebhookCall, c.statusCode = 410 → callStatus c false = CallStatus.responseError) ∧
    (∀ c s r, Event.webhookCalled c s r ∈ (CallWebhookAction.Execute a env run).2.1 →
      s = callStatus c false ∧ s ≠ CallStatus.subscriberGone) ∧
    (∀ (ra : CallResthookAction) c s r,
      Event.webhookCalled c s r ∈ (CallResthookAction.Execute ra env run).2.1 →
      s = callStatus c true) := by
  have hnsg : ∀ c : WebhookCall, callStatus c false ≠ CallStatus.subscriberGone := by
    intro c
    rw [callStatus_webhook_eq]
    split
    · simp
    · split <;> simp
  refine ⟨hnsg, ?_, ?_, ?_⟩
  · intro c h410
    have hz : c.statusCode ≠ 0 := by omega
    have hd : c.statusCode / 100 ≠ 2 := by omega
    rw [callStatus_webhook_eq]
    simp [hz, hd]
  · intro c s r hmem
    have h := webhook_exec_events_ok a env run _ hmem
    exact ⟨h.1, h.1 ▸ hnsg c⟩
  · intro ra c s r hmem
    exact (resthook_exec_webhook_events ra env run c s r hmem).1

theorem webhook_never_subscriber_gone_witness :
    callStatus w410 false = CallStatus.responseError ∧
    CallStatus.responseError = callStatus w410 false ∧
    CallStatus.subscriberGone = callStatus w410 true := by
  refine ⟨?_, ?_, ?_⟩
  · exact (webhook_never_subscriber_gone whAction envW410 run0).2.1 w410 (by decide)
  · exact ((webhook_never_subscriber_gone whAction envW410 run0).2.2.1 w410
      CallStatus.responseError "" (by decide)).1
  · exact (webhook_never_subscriber_gone whAction env3 run0).2.2.2 rhAction3 w410
      CallStatus.subscriberGone "new-registration" (by decide)

lemma webhook_call_no_service (a : CallWebhookAction) (env : Env) (run : RunState)
    (url method body : String) (evs : List Event) (e : GoErr) (req : HttpRequest)
    (hreq : env.newRequest method url body = Except.ok req)
    (hs : env.webhookService = Except.error e) :
    CallWebhookAction.call a env run url method body evs =
      (run, (addHeaders env a.Headers req evs).2 ++ [Event.errorEvent e], none) := by
  unfold CallWebhookAction.call
  rw [hreq, hs]

lemma resthook_exec_no_service (a : CallResthookAction) (env : Env) (run : RunState)
    (rh : Resthook) (u : String) (rest : List String) (e : GoErr) (req : HttpRequest)
    (hf : env.findResthook a.Resthook = some rh)
    (hp : (env.evalTemplate ResthookPayload).2 = none)
    (hv : env.jsonValid (env.evalTemplate ResthookPayload).1 = true)
    (hsubs : rh.subscribers = u :: rest)
    (hreq : env.newRequest "POST" u (env.evalTemplate ResthookPayload).1 = Except.ok req)
    (hs : env.webhookService = Except.error e) :
    CallResthookAction.Execute a env run =
      (run, [Event.resthookCalled a.Resthook (env.evalTemplate ResthookPayload).1,
        Event.errorEvent e], none) := by
  rw [resthook_exec_valid a env run rh hf hp hv]
  simp only [hsubs, subscriberLoop, hreq, hs]
  simp

/-- C7: Every factory of the empty services registry returns a nil service
and a non-nil error; and when the call_webhook or call_resthook action
receives such an error while resolving the webhook service, it appends an
error event and returns nil rather than failing. -/
theorem empty_services_graceful :
    (∀ session : Session,
      (newEmptyServices.Email session).1 = none ∧
        ((newEmptyServices.Email session).2).isSome = true ∧
      (newEmptyServices.Webhook session).1 = none ∧
        ((newEmptyServices.Webhook session).2).isSome = true ∧
      (newEmptyServices.Airtime session).1 = none ∧
        ((newEmptyServices.Airtime session).2).isSome = true) ∧
    (∀ (session : Session) (c : Classifier),
      (newEmptyServices.Classification session c).1 = none ∧
        ((newEmptyServices.Classification session c).2).isSome = true) ∧
    (∀ (session : Session) (t : Ticketer),
      (newEmptyServices.Ticket session t).1 = none ∧
        ((newEmptyServices.Ticket session t).2).isSome = true) ∧
    (∀ (session : Session) (x : ExternalService),
      (newEmptyServices.ExternalService session x).1 = none ∧
        ((newEmptyServices.ExternalService session x).2).isSome = true) ∧
    (∀ (session : Session) (m : MsgCatalog),
      (newEmptyServices.MsgCatalog session m).1 = none ∧
        ((newEmptyServices.MsgCatalog session m).2).isSome = true) ∧
    (∀ (a : CallWebhookAction) (env : Env) (run : RunState) (url method body : String)
        (evs : List Event) (e : GoErr) (req : HttpRequest),
      env.newRequest method url body = Except.ok req →
      env.webhookService = Except.error e →
      (CallWebhookAction.call a env run url method body evs).1 = run ∧
      (CallWebhookAction.call a env run url method body evs).2.2 = none ∧
      ((CallWebhookAction.call a env run url method body evs).2.1).getLast? =
        some (Event.errorEvent e)) ∧
    (∀ (a : CallResthookAction) (env : Env) (run : RunState) (rh : Resthook)
        (u : String) (rest : List String) (e : GoErr) (req : HttpRequest),
      env.findResthook a.Resthook = some rh →
      (env.evalTemplate ResthookPayload).2 = none →
      env.jsonValid (env.evalTemplate ResthookPayload).1 = true →
      rh.subscribers = u :: rest →
      env.newRequest "POST" u (env.evalTemplate ResthookPayload).1 = Except.ok req →
      env.webhookService = Except.error e →
      CallResthookAction.Execute a env run =
        (run, [Event.resthookCalled a.Resthook (env.evalTemplate ResthookPayload).1,
          Event.errorEvent e], none)) := by
  refine ⟨fun _ => ⟨rfl, rfl, rfl, rfl, rfl, rfl⟩, fun _ _ => ⟨rfl, rfl⟩, fun _ _ => ⟨rfl, rfl⟩,
    fun _ _ => ⟨rfl, rfl⟩, fun _ _ => ⟨rfl, rfl⟩, ?_, ?_⟩
  · intro a env run url method body evs e req hreq hs
    rw [webhook_call_no_service a env run url method body evs e req hreq hs]
    exact ⟨rfl, rfl, List.getLast?_concat _⟩
  · intro a env run rh u rest e req hf hp hv hsubs hreq hs
    exact resthook_exec_no_service a env run rh u rest e req hf hp hv hsubs hreq hs

/-- Environment with no webhook service configured, as produced by
`newEmptyServices`. -/
def envNoSvc : Env :=
  { env3 with webhookService := Except.error "no webhook service factory configured" }

theorem empty_services_graceful_witness :
    (CallWebhookAction.call whAction envNoSvc run0 "u1" "GET" "" []).1 = run0 ∧
    (CallWebhookAction.call whAction envNoSvc run0 "u1" "GET" "" []).2.2 = none ∧
    ((CallWebhookAction.call whAction envNoSvc run0 "u1" "GET" "" []).2.1).getLast? =
      some (Event.errorEvent "no webhook service factory configured") ∧
    CallResthookAction.Execute rhAction3 envNoSvc run0 =
      (run0, [Event.resthookCalled "new-registration" "\x7b\x7d",
        Event.errorEvent "no webhook service factory configured"], none) := by
  obtain ⟨hr1, hr2, hr3⟩ := (empty_services_graceful).2.2.2.2.2.1 whAction envNoSvc run0
    "u1" "GET" "" [] "no webhook service factory configured" ⟨"GET", "u1", "", []⟩
    rfl rfl
  refine ⟨hr1, hr2, hr3, ?_⟩
  have h := (empty_services_graceful).2.2.2.2.2.2 rhAction3 envNoSvc run0
    ⟨["u1", "u2", "u3"]⟩ "u1" ["u2", "u3"] "no webhook service factory configured"
    ⟨"POST", "u1", "\x7b\x7d", []⟩ (by decide) (by decide) (by decide) (by decide)
    rfl rfl
  rw [h]
  rfl

/-- Environment with a resthook that has no subscribers. -/
def envNoSubs : Env :=
  { env3 with findResthook := fun s => if s = "new-registration" then some ⟨[]⟩ else none }

/-- C10: For every execution of the call_resthook action in which no
subscriber call produced a response object (for example, a resthook with
zero subscribers), the run's webhook scratch value is left unchanged:
SetWebhook is invoked only when pickResultCall returns a call. -/
theorem resthook_scratch_only_on_pick (a : CallResthookAction) (env : Env) (run : RunState)
    (rh : Resthook)
    (hf : env.findResthook a.Resthook = some rh)
    (hp : (env.evalTemplate ResthookPayload).2 = none)
    (hv : env.jsonValid (env.evalTemplate ResthookPayload).1 = true) :
    (∀ calls, (subscriberLoop env a.Resthook (env.evalTemplate ResthookPayload).1 rh.subscribers
        [] [Event.resthookCalled a.Resthook (env.evalTemplate ResthookPayload).1]).2
        = some calls →
      pickResultCall calls = none →
      ((CallResthookAction.Execute a env run).1).webhook = run.webhook) ∧
    ((subscriberLoop env a.Resthook (env.evalTemplate ResthookPayload).1 rh.subscribers []
        [Event.resthookCalled a.Resthook (env.evalTemplate ResthookPayload).1]).2 = none →
      ((CallResthookAction.Execute a env run).1).webhook = run.webhook) ∧
    (rh.subscribers = [] →
      ((CallResthookAction.Execute a env run).1).webhook = run.webhook) := by
  have hex := resthook_exec_valid a env run rh hf hp hv
  refine ⟨?_, ?_, ?_⟩
  · intro calls hL hpick
    rw [hex]
    simp only [hL, hpick]
    split
    · simp [saveResult]
    · simp
  · intro hL
    rw [hex]
    simp only [hL]
  · intro hsubs
    rw [hex]
    simp only [hsubs, subscriberLoop]
    have hpick : pickResultCall ([] : List WebhookCall) = none := rfl
    simp only [hpick]
    split
    · simp [saveResult]
    · simp

theorem resthook_scratch_only_on_pick_witness :
    ((CallResthookAction.Execute rhAction3 envNoSubs run0).1).webhook = run0.webhook :=
  (resthook_scratch_only_on_pick rhAction3 envNoSubs run0 ⟨[]⟩
    (by decide) (by decide) (by decide)).2.2 (by decide)

/-- The resthook action without a result name (concrete test fixture). -/
def rhActionNoName : CallResthookAction := ⟨"new-registration", ""⟩

theorem resthook_no_subscribers_counterexample :
    envNoSubs.findResthook rhActionNoName.Resthook = some ⟨[]⟩ ∧
    (envNoSubs.evalTemplate ResthookPayload).2 = none ∧
    envNoSubs.jsonValid (envNoSubs.evalTemplate ResthookPayload).1 = true ∧
    (CallResthookAction.Execute rhActionNoName envNoSubs run0).2.1 =
      [Event.resthookCalled "new-registration" "\x7b\x7d"] ∧
    ((CallResthookAction.Execute rhActionNoName envNoSubs run0).1).results = [] ∧
    (CallResthookAction.Execute rhActionNoName envNoSubs run0).2.2 = none :=
  ⟨by decide, by decide, by decide, by decide, by decide, by decide⟩

/-- C5 (amended): For every execution of the call_resthook action in which
the resthook resolves, the payload is valid JSON, the webhook service
resolves and every subscriber request builds, exactly one resthook_called
event carrying the payload is appended, first (before any subscriber is
contacted), then one webhook_called event per subscriber whose call
produced a response; with no subscribers the resthook_called event is still
appended and, when the action has a result name set, a "no subscribers"
Failure result is recorded. -/
theorem resthook_events_per_subscriber (a : CallResthookAction) (env : Env) (run : RunState)
    (rh : Resthook) (svc : WebhookSvc)
    (hf : env.findResthook a.Resthook = some rh)
    (hp : (env.evalTemplate ResthookPayload).2 = none)
    (hv : env.jsonValid (env.evalTemplate ResthookPayload).1 = true)
    (hs : env.webhookService = Except.ok svc)
    (hreq : ∀ u ∈ rh.subscribers,
      (env.newRequest "POST" u (env.evalTemplate ResthookPayload).1).isOk = true) :
    ((CallResthookAction.Execute a env run).2.1).countP Event.isResthookCalled = 1 ∧
    ((CallResthookAction.Execute a env run).2.1).head? =
      some (Event.resthookCalled a.Resthook (env.evalTemplate ResthookPayload).1) ∧
    ((CallResthookAction.Execute a env run).2.1).countP Event.isWebhookCalled =
      respondedCount env (env.evalTemplate ResthookPayload).1 rh.subscribers ∧
    (rh.subscribers = [] →
      (CallResthookAction.Execute a env run).2.1 =
        [Event.resthookCalled a.Resthook (env.evalTemplate ResthookPayload).1] ∧
      (a.ResultName ≠ "" →
        ((CallResthookAction.Execute a env run).1).results =
          run.results ++ [(a.ResultName, ⟨"no subscribers", "Failure", none⟩)])) := by
  have hevents := resthook_exec_valid_events a env run rh hf hp hv
  obtain ⟨extra, hx, hok⟩ := subscriberLoop_events env a.Resthook
    (env.evalTemplate ResthookPayload).1 rh.subscribers []
    [Event.resthookCalled a.Resthook (env.evalTemplate ResthookPayload).1]
  have hclean := subscriberLoop_clean env a.Resthook (env.evalTemplate ResthookPayload).1
    rh.subscribers svc hs []
    [Event.resthookCalled a.Resthook (env.evalTemplate ResthookPayload).1] hreq
  refine ⟨?_, ?_, ?_, ?_⟩
  · rw [hevents, hx, List.countP_append]
    have hz : extra.countP Event.isResthookCalled = 0 := by
      rw [List.countP_eq_zero]
      intro ev hev
      have hk := hok ev hev
      cases ev with
      | errorEvent m => simp [Event.isResthookCalled]
      | resthookCalled s p => exact hk.elim
      | webhookCalled c s r => simp [Event.isResthookCalled]
    rw [hz]
    rfl
  · rw [hevents, hx]
    rfl
  · rw [hevents]
    have h0 : List.countP Event.isWebhookCalled
        [Event.resthookCalled a.Resthook (env.evalTemplate ResthookPayload).1] = 0 := rfl
    rw [hclean.2, h0]
    omega
  · intro hsubs
    have hexec := resthook_exec_valid a env run rh hf hp hv
    have hpick : pickResultCall ([] : List WebhookCall) = none := rfl
    refine ⟨?_, ?_⟩
    · rw [hexec]
      simp only [hsubs, subscriberLoop, hpick]
      split
      · simp
      · simp
    · intro hrn
      have hbne : (a.ResultName != "") = true := by simpa using hrn
      rw [hexec]
      simp only [hsubs, subscriberLoop, hpick, hbne, if_true]
      simp [saveResult]

theorem resthook_events_per_subscriber_witness :
    ((CallResthookAction.Execute rhAction3 env3 run0).2.1).countP Event.isResthookCalled = 1 ∧
    ((CallResthookAction.Execute rhAction3 env3 run0).2.1).countP Event.isWebhookCalled = 3 := by
  obtain ⟨h1, h2, h3, h4⟩ := resthook_events_per_subscriber rhAction3 env3 run0
    ⟨["u1", "u2", "u3"]⟩ svc3 (by decide) (by decide) (by decide) rfl (by decide)
  refine ⟨h1, ?_⟩
  rw [h3]
  decide

/-- C9: For every execution of the call_resthook action, if building the
HTTP request fails for some subscriber (or, as the first subscriber is
processed, resolving the webhook service fails; see the separate service
conjunct), the action appends an error event and returns nil immediately:
the remaining subscribers are not contacted (the loop result equals the
loop on the subscribers up to the failing one), no result is saved even
when result_name is set, and the run (including its webhook scratch value)
is unchanged. -/
theorem resthook_request_failure_aborts (a : CallResthookAction) (env : Env) (run : RunState)
    (rh : Resthook) (pre : List String) (u : String) (post : List String) (svc : WebhookSvc)
    (e : GoErr)
    (hf : env.findResthook a.Resthook = some rh)
    (hp : (env.evalTemplate ResthookPayload).2 = none)
    (hv : env.jsonValid (env.evalTemplate ResthookPayload).1 = true)
    (hsubs : rh.subscribers = pre ++ u :: post)
    (hs : env.webhookService = Except.ok svc)
    (hpre : ∀ v ∈ pre, (env.newRequest "POST" v (env.evalTemplate ResthookPayload).1).isOk = true)
    (hu : env.newRequest "POST" u (env.evalTemplate ResthookPayload).1 = Except.error e) :
    (∃ evs1, CallResthookAction.Execute a env run =
      (run, evs1 ++ [Event.errorEvent e], none)) ∧
    subscriberLoop env a.Resthook (env.evalTemplate ResthookPayload).1 (pre ++ u :: post) []
        [Event.resthookCalled a.Resthook (env.evalTemplate ResthookPayload).1] =
      subscriberLoop env a.Resthook (env.evalTemplate ResthookPayload).1 (pre ++ [u]) []
        [Event.resthookCalled a.Resthook (env.evalTemplate ResthookPayload).1] := by
  have hclean := subscriberLoop_clean env a.Resthook (env.evalTemplate ResthookPayload).1
    pre svc hs []
    [Event.resthookCalled a.Resthook (env.evalTemplate ResthookPayload).1] hpre
  cases hP2 : (subscriberLoop env a.Resthook (env.evalTemplate ResthookPayload).1 pre []
      [Event.resthookCalled a.Resthook (env.evalTemplate ResthookPayload).1]).2 with
  | none =>
    rw [hP2] at hclean
    simp at hclean
  | some calls1 =>
    have hP : subscriberLoop env a.Resthook (env.evalTemplate ResthookPayload).1 pre []
        [Event.resthookCalled a.Resthook (env.evalTemplate ResthookPayload).1] =
        ((subscriberLoop env a.Resthook (env.evalTemplate ResthookPayload).1 pre []
          [Event.resthookCalled a.Resthook (env.evalTemplate ResthookPayload).1]).1,
         some calls1) := by
      rw [← hP2]
    have hstep : ∀ l2 : List String,
        subscriberLoop env a.Resthook (env.evalTemplate ResthookPayload).1 (u :: l2) calls1
          (subscriberLoop env a.Resthook (env.evalTemplate ResthookPayload).1 pre []
            [Event.resthookCalled a.Resthook (env.evalTemplate ResthookPayload).1]).1 =
        ((subscriberLoop env a.Resthook (env.evalTemplate ResthookPayload).1 pre []
            [Event.resthookCalled a.Resthook (env.evalTemplate ResthookPayload).1]).1
          ++ [Event.errorEvent e], none) := by
      intro l2
      simp [subscriberLoop, hu]
    have hloop : subscriberLoop env a.Resthook (env.evalTemplate ResthookPayload).1
        (pre ++ u :: post) []
        [Event.resthookCalled a.Resthook (env.evalTemplate ResthookPayload).1] =
        ((subscriberLoop env a.Resthook (env.evalTemplate ResthookPayload).1 pre []
            [Event.resthookCalled a.Resthook (env.evalTemplate ResthookPayload).1]).1
          ++ [Event.errorEvent e], none) := by
      rw [subscriberLoop_append, hP]
      exact hstep post
    have hloop1 : subscriberLoop env a.Resthook (env.evalTemplate ResthookPayload).1
        (pre ++ [u]) []
        [Event.resthookCalled a.Resthook (env.evalTemplate ResthookPayload).1] =
        ((subscriberLoop env a.Resthook (env.evalTemplate ResthookPayload).1 pre []
            [Event.resthookCalled a.Resthook (env.evalTemplate ResthookPayload).1]).1
          ++ [Event.errorEvent e], none) := by
      rw [subscriberLoop_append, hP]
      exact hstep []
    refine ⟨?_, by rw [hloop, hloop1]⟩
    refine ⟨(subscriberLoop env a.Resthook (env.evalTemplate ResthookPayload).1 pre []
      [Event.resthookCalled a.Resthook (env.evalTemplate ResthookPayload).1]).1, ?_⟩
    rw [resthook_exec_valid a env run rh hf hp hv]
    simp only [hsubs, hloop]

/-- Environment where building the request for subscriber u2 fails. -/
def envReqFail : Env :=
  { env3 with newRequest := fun m u b =>
      if u = "u2" then Except.error "bad url" else Except.ok ⟨m, u, b, []⟩ }

theorem resthook_request_failure_aborts_witness :
    (∃ evs1, CallResthookAction.Execute rhAction3 envReqFail run0 =
      (run0, evs1 ++ [Event.errorEvent "bad url"], none)) ∧
    ((CallResthookAction.Execute rhAction3 envReqFail run0).1) = run0 := by
  obtain ⟨h1, h2⟩ := resthook_request_failure_aborts rhAction3 envReqFail run0
    ⟨["u1", "u2", "u3"]⟩ ["u1"] "u2" ["u3"] svc3 "bad url"
    (by decide) (by decide) (by decide) (by decide) rfl (by decide) rfl
  refine ⟨h1, ?_⟩
  obtain ⟨evs1, he⟩ := h1
  rw [he]
